import Mathlib

/-
Verification of the go-learning-book repository: shallow embeddings of the
chapter demo programs (Go source translated into Lean definitions) and
theorems settling the specification claims about them.
-/

set_option linter.unusedVariables false

namespace GoBook

/-! ## A fragment of the Go expression language and its typing rules.

Chapters 2 and 4 open main with
  fmt.Println("🐹 Go ... 🐹")
  fmt.Println("=" * 50)
We embed just enough of the Go static semantics to type these expressions.
Per the Go specification, the arithmetic operator * applies to numeric
operands only; strings support no * operator, so a product of a string
constant and an integer constant has no type. -/

inductive GoType where
  | tInt : GoType
  | tString : GoType
  | tBool : GoType
deriving DecidableEq, Repr

inductive GoExpr where
  | intLit : Int → GoExpr
  | strLit : String → GoExpr
  | boolLit : Bool → GoExpr
  | mul : GoExpr → GoExpr → GoExpr
  | add : GoExpr → GoExpr → GoExpr
deriving DecidableEq, Repr

/-- Types of the Go expression fragment: literals have their literal type;
the binary operators require both operands of the same type, * numeric
only, while + also applies to two strings (string concatenation). -/
def typeOf : GoExpr → Option GoType
  | .intLit _ => some .tInt
  | .strLit _ => some .tString
  | .boolLit _ => some .tBool
  | .mul a b =>
    match typeOf a, typeOf b with
    | some .tInt, some .tInt => some .tInt
    | _, _ => none
  | .add a b =>
    match typeOf a, typeOf b with
    | some .tInt, some .tInt => some .tInt
    | some .tString, some .tString => some .tString
    | _, _ => none

/-- The argument of the first Println of main in chapter 2, line 6
(src/02-variables-types/main.go). -/
def ch2MainLine6Arg : GoExpr := .strLit "🐹 Go Variables and Types - Chapter 2 🐹"

/-- The argument of the second Println of main in chapter 2, line 7:
the expression given as a product of the string constant and 50
(src/02-variables-types/main.go). The same expression opens main in
chapter 4 (src/04-functions/main.go, line 7). -/
def ch2MainLine7Arg : GoExpr := .mul (.strLit "=") (.intLit 50)

/-- The argument of the first Println of main in chapter 4, line 6
(src/04-functions/main.go). -/
def ch4MainLine6Arg : GoExpr := .strLit "🐹 Go Functions - Chapter 4 🐹"

/-! ## Chapter 6, section3_WorkingWithMaps (src/06-maps/main.go lines 164-191).

The bookRatings map literal and the first range loop over it, which prints
one line per entry. The Go specification leaves the iteration order of a
range loop over a map unspecified (and the runtime randomizes it), so a run
of the loop corresponds to an arbitrary permutation of the entry list. -/

def bookRatings : List (String × Int) :=
  [("Go Programming", 5), ("Python Basics", 4), ("JavaScript Guide", 3),
   ("Rust Tutorial", 5), ("Java Reference", 2)]

/-- The line printed for one map entry by the first range loop:
Printf("  %s: %d stars\n", book, rating). -/
def ratingLine (kv : String × Int) : String :=
  "  " ++ kv.1 ++ ": " ++ toString kv.2 ++ " stars\n"

/-- The lines printed by the first range loop when the map yields its
entries in the given order. -/
def rangeLines (order : List (String × Int)) : List String :=
  order.map ratingLine

/-- The text printed by the first range loop for a given iteration order. -/
def rangeOutput (order : List (String × Int)) : String :=
  String.join (rangeLines order)

/-! ## Chapter 10, simulateUnreliableOperation
(src/10-error-handling/main.go lines 712-718). The function reads the
clock: it fails exactly when time.Now().UnixNano() % 10 < 7. We embed it
as a function of that clock reading; Go integer % is truncated, Int.tmod. -/

/-- simulateUnreliableOperation, as a function of the run-time clock value
time.Now().UnixNano() it consults. Returns some message for failure
(errors.New), none for success (nil). -/
def simulateUnreliableOperation (nowUnixNano : Int) : Option String :=
  if Int.tmod nowUnixNano 10 < 7 then some "operation failed" else none

/-- A second iteration order for the bookRatings entries, also a
permutation of the map literal entry list. -/
def bookRatingsAlt : List (String × Int) :=
  [("Python Basics", 4), ("Go Programming", 5), ("JavaScript Guide", 3),
   ("Rust Tutorial", 5), ("Java Reference", 2)]

/-! ## Chapter 10, divideSafely and safeDivide
(src/10-error-handling/main.go lines 837-860). Go integer division
truncates toward zero: Int.tdiv. safeDivide panics on a zero divisor and
recovers in a deferred handler; its body before recovery is embedded as an
Except value (error = panic), and safeDivide runs the deferred recover:
the named result still holds its zero value at the time of the panic. -/

/-- divideSafely: returns an error for a zero divisor, the quotient
otherwise. -/
def divideSafely (a b : Int) : Int × Option String :=
  if b = 0 then (0, some "division by zero") else (Int.tdiv a b, none)

/-- The body of safeDivide up to the deferred handler: panics (error) when
b is zero, otherwise assigns result = a / b and returns it with a nil
error. -/
def safeDivideBody (a b : Int) : Except String (Int × Option String) :=
  if b = 0 then .error "division by zero" else .ok (Int.tdiv a b, none)

/-- safeDivide: runs the body; the deferred recover turns a panic into the
error "panic recovered: ..." while the named int result still holds its
zero value. -/
def safeDivide (a b : Int) : Int × Option String :=
  match safeDivideBody a b with
  | .error msg => (0, some ("panic recovered: " ++ msg))
  | .ok r => r

/-! ## Chapter 8, the File type and its methods
(src/08-interfaces/main.go lines 414-418 and 498-523). Go strings are byte
sequences; we embed file contents and buffers as lists of bytes (Nat), so
len(f.Content) is the list length. -/

structure File where
  Name : String
  Content : List Nat
  IsOpen : Bool
deriving DecidableEq, Repr

/-- The Go builtin copy(dst, src): copies min(len dst, len src) elements
into the front of dst and returns that count; returns the updated buffer
and the count. -/
def goCopy (dst src : List Nat) : List Nat × Nat :=
  let k := min dst.length src.length
  (src.take k ++ dst.drop k, k)

/-- File.Read: on a closed file returns (0, error); on an open file copies
the content into p (truncated to the buffer by copy) and returns
len(f.Content) with a nil error. Result: (updated buffer, n, err). -/
def fileRead (f : File) (p : List Nat) : List Nat × Nat × Option String :=
  if f.IsOpen = false then (p, 0, some "file is not open")
  else ((goCopy p f.Content).1, f.Content.length, none)

/-- File.Write: on a closed file returns (0, error); otherwise replaces the
content with p and returns len(p). Result: (updated file, n, err). -/
def fileWrite (f : File) (p : List Nat) : File × Nat × Option String :=
  if f.IsOpen = false then (f, 0, some "file is not open")
  else ({ f with Content := p }, p.length, none)

/-- File.Close: errors if already closed, otherwise clears IsOpen.
Result: (updated file, err). -/
def fileClose (f : File) : File × Option String :=
  if f.IsOpen = false then (f, some "file is already closed")
  else ({ f with IsOpen := false }, none)

/-- A concrete file as built in the chapter 8 demo: an open file holding
the five bytes of "Hello". -/
def demoFile : File := { Name := "test.txt", Content := [72, 101, 108, 108, 111], IsOpen := true }

/-- A five-byte destination buffer. -/
def demoBuf : List Nat := [0, 0, 0, 0, 0]

/-- A three-byte destination buffer, shorter than the demo content. -/
def shortBuf : List Nat := [0, 0, 0]

/-! ## Go method call semantics for value and pointer receivers.

A method with a value receiver runs its body on a copy of the receiver:
whatever the body does to the copy, the callers variable is unchanged
after the call. A method with a pointer receiver runs the body on the
callers variable itself. The body returns (receiver after the body,
printed text). -/

def goMethodCallByValue {α β : Type} (recv : α) (body : α → α × β) : α × β :=
  let r := body recv
  (recv, r.2)

def goMethodCallByPointer {α β : Type} (recv : α) (body : α → α × β) : α × β :=
  body recv

/-! ## The Person type of chapter 7 (src/06-maps/main.go, second document,
lines 617-622 and 684-687: value receiver) and of chapter 9
(src/unnamed/part_000 lines 579-586 and 651-654: pointer receiver). -/

structure Person07 where
  Name : String
  Age : Int
  Email : String
  IsActive : Bool
deriving DecidableEq, Repr

structure Person09 where
  Name : String
  Age : Int
  Email : String
  IsActive : Bool
  Hobbies : List String
  Metadata : List (String × String)
deriving DecidableEq, Repr

/-- The body of the chapter 7 HaveBirthday: p.Age++ then
Printf("Happy birthday! %s is now %d years old.\n", ...). -/
def haveBirthdayBody07 (p : Person07) : Person07 × String :=
  let q : Person07 := { p with Age := p.Age + 1 }
  (q, "Happy birthday! " ++ q.Name ++ " is now " ++ toString q.Age ++ " years old.\n")

/-- The body of the chapter 9 HaveBirthday (same statements, receiver is a
pointer). -/
def haveBirthdayBody09 (p : Person09) : Person09 × String :=
  let q : Person09 := { p with Age := p.Age + 1 }
  (q, "Happy birthday! " ++ q.Name ++ " is now " ++ toString q.Age ++ " years old.\n")

/-- The call p.HaveBirthday() in chapter 7: value receiver, so the body
runs on a copy. Returns (callers struct after the call, printed text). -/
def callHaveBirthday07 (p : Person07) : Person07 × String :=
  goMethodCallByValue p haveBirthdayBody07

/-- The call p.HaveBirthday() in chapter 9: pointer receiver, so the body
mutates the callers struct. -/
def callHaveBirthday09 (p : Person09) : Person09 × String :=
  goMethodCallByPointer p haveBirthdayBody09

/-- The person used by the chapter 7 structs demo. -/
def alice07 : Person07 :=
  { Name := "Alice", Age := 25, Email := "alice@example.com", IsActive := true }

/-! ## Chapter 9, the Config singleton (src/unnamed/part_000 lines
629-634 and 751-772). The package-level variable configInstance is a
pointer, nil until the first GetConfig call allocates the instance. We
embed the heap as a map from addresses to Config records, with nil
modelled as none. -/

structure Config where
  Theme : String
  Language : String
  Timezone : String
  DebugMode : Bool
deriving DecidableEq, Repr

/-- The composite literal allocated by the first GetConfig call. -/
def initialConfig : Config :=
  { Theme := "light", Language := "en", Timezone := "UTC", DebugMode := false }

/-- The program state the chapter 9 singleton demo touches: a heap of
Config allocations, the next fresh address, and the package-level pointer
configInstance. -/
structure Mem where
  heap : Nat → Config
  next : Nat
  configInstance : Option Nat

/-- GetConfig: if configInstance is nil, allocate the initial Config and
store its address in configInstance; return configInstance. -/
def GetConfig (s : Mem) : Option Nat × Mem :=
  match s.configInstance with
  | some a => (some a, s)
  | none =>
    let a := s.next
    let s2 : Mem :=
      { heap := fun n => if n = a then initialConfig else s.heap n,
        next := a + 1,
        configInstance := some a }
    (s2.configInstance, s2)

/-- SetTheme on the Config at address a: c.Theme = theme. -/
def SetTheme (s : Mem) (a : Nat) (theme : String) : Mem :=
  { s with heap := fun n => if n = a then { s.heap n with Theme := theme } else s.heap n }

/-- GetTheme on the Config at address a. -/
def GetTheme (s : Mem) (a : Nat) : String :=
  (s.heap a).Theme

/-! ## Chapter 10, the error values and the errors package operations
(src/10-error-handling/main.go). Go error values are interface values
compared by identity; errors.New allocates a fresh value, embedded as a
base error with a distinguishing allocation id. fmt.Errorf with %w
produces a wrapping error whose message is the formatted text followed by
the message of the wrapped error, and whose Unwrap returns the wrapped
error. The struct error types of the chapter, *ValidationError and
*DatabaseError, carry their fields. -/

inductive GoErr where
  | base : Nat → String → GoErr
  | wrap : String → GoErr → GoErr
  | validation : String → String → Int → GoErr
  | database : String → String → String → Int → GoErr
deriving DecidableEq, Repr

/-- The Error() message of an error value: base errors return their text,
a wrapping error built by fmt.Errorf("...: %w", e) prepends the formatted
text, and the struct error types format their fields as in the source. -/
def errMsg : GoErr → String
  | .base _ m => m
  | .wrap pre e => pre ++ errMsg e
  | .validation f m v =>
    "validation failed for " ++ f ++ ": " ++ m ++ " (value: " ++ toString v ++ ")"
  | .database op t m c =>
    "database error in " ++ op ++ " on table " ++ t ++ ": " ++ m ++ " (code: " ++ toString c ++ ")"

/-- errors.Unwrap: defined (non-nil) exactly on errors that wrap another
error; none of the struct error types of the chapter has an Unwrap
method. -/
def unwrap : GoErr → Option GoErr
  | .wrap _ e => some e
  | _ => none

/-- errors.Is: err == target, or recursively on Unwrap(err). None of the
error types of the chapter defines an Is method. -/
def errorsIs : GoErr → GoErr → Bool
  | .wrap pre e, target => (if GoErr.wrap pre e = target then true else errorsIs e target)
  | e, target => (if e = target then true else false)

/-- errors.As with a **ValidationError target: succeeds if err is a
*ValidationError, else recurses on Unwrap(err). -/
def errorsAsValidation : GoErr → Bool
  | .validation _ _ _ => true
  | .wrap _ e => errorsAsValidation e
  | _ => false

/-- errors.As with a **DatabaseError target. -/
def errorsAsDatabase : GoErr → Bool
  | .database _ _ _ _ => true
  | .wrap _ e => errorsAsDatabase e
  | _ => false

/-- The links of a wrapped-error chain: the error itself followed by the
chain of what it unwraps to. -/
def chain : GoErr → List GoErr
  | .wrap pre e => GoErr.wrap pre e :: chain e
  | .base i m => [.base i m]
  | .validation f m v => [.validation f m v]
  | .database op t m c => [.database op t m c]

/-- Whether an error value is itself a *ValidationError. -/
def isValidationLink : GoErr → Bool
  | .validation _ _ _ => true
  | _ => false

/-- The four errors of section5_AdvancedErrorPatterns
(src/10-error-handling/main.go lines 487-506): originalErr allocated by
errors.New, the three wrappers built by fmt.Errorf with %w. -/
def originalErr : GoErr := .base 0 "connection timeout"

def dbErr : GoErr := .wrap "database query failed: " originalErr

def serviceErr : GoErr := .wrap "failed to get user data: " dbErr

def apiErr : GoErr := .wrap "user profile update failed: " serviceErr

/-! ## Chapter 10, effect traces. Println and Printf write to standard
output; the log package writes to standard error by default, which is
where log.Printf sends its output. -/

inductive Effect where
  | stdout : String → Effect
  | stderr : String → Effect
deriving DecidableEq, Repr

/-- The User struct of chapter 10 (src/10-error-handling/main.go lines
12-17). -/
structure User where
  ID : String
  Name : String
  Age : Int
  Email : String
deriving DecidableEq, Repr

/-- strings.Contains(s, at-sign) for the single-character pattern used in
processUser. -/
def containsAtSign (s : String) : Bool :=
  s.toList.contains '@'

/-- processUser (src/10-error-handling/main.go lines 327-351): four
validation checks, each returning a fresh errors.New value; on success
prints to standard output and returns nil. Result: (returned error,
emitted effects). -/
def processUser (u : User) : Option GoErr × List Effect :=
  if u.Name = "" then (some (.base 1 "name is required"), [])
  else if u.Age < 18 then (some (.base 2 "user must be at least 18"), [])
  else if u.Email = "" then (some (.base 3 "email is required"), [])
  else if containsAtSign u.Email = false then (some (.base 4 "invalid email format"), [])
  else (none, [.stdout "User is valid!\n"])

/-- handleUserSubmission (src/10-error-handling/main.go lines 677-692): on
an error from processUser, log.Printf writes the failure to standard
error, then a message chosen by IsValidationError is printed to standard
output; on success a confirmation is printed. -/
def handleUserSubmission (u : User) : List Effect :=
  match processUser u with
  | (some e, out) =>
    out ++ [.stderr ("User submission failed: " ++ errMsg e),
            .stdout (if errorsAsValidation e then
                       "Please fix the validation issues and try again\n"
                     else
                       "An unexpected error occurred. Please try again later.\n")]
  | (none, out) => out ++ [.stdout "User submitted successfully!\n"]

/-- validateUserAge (src/10-error-handling/main.go lines 656-665). -/
def validateUserAge (age : Int) : Option GoErr :=
  if age < 18 then some (.validation "age" "must be at least 18" age) else none

/-- connectToDatabase (src/10-error-handling/main.go lines 667-675):
always returns a *DatabaseError. -/
def connectToDatabase : Option GoErr :=
  some (.database "CONNECT" "N/A" "connection refused" 1001)

/-- processUserWithErrorTypes (src/10-error-handling/main.go lines
639-654): an expected validation error is returned as is with no logging;
the database failure is logged via log.Printf (standard error) and a
generic errors.New value is returned. -/
def processUserWithErrorTypes (u : User) : Option GoErr × List Effect :=
  match validateUserAge u.Age with
  | some e => (some e, [])
  | none =>
    match connectToDatabase with
    | some e =>
      (some (.base 5 "service temporarily unavailable"),
       [.stderr ("Database connection failed: " ++ errMsg e)])
    | none => (none, [])

/-- Whether an effect is a standard-error write. -/
def isStderrEffect : Effect → Bool
  | .stderr _ => true
  | .stdout _ => false

/-! ## Chapter 8, sortInts and sortStrings (src/08-interfaces/main.go
lines 612-632). Both are the same bubble sort, one on int, one on string:
  for i := 0; i < len(xs)-1; i++
    for j := 0; j < len(xs)-i-1; j++
      if xs[j] > xs[j+1] { swap }
The inner loop with bound b compares positions (j, j+1) for j < b; it is
embedded structurally: the comparison at j keeps the smaller element and
carries the larger into the comparison at j+1, and elements at positions
past b are untouched. The outer loop runs the inner loop with the bounds
len-1, len-2, ..., 1. -/

def passUpTo {α : Type} [LinearOrder α] : Nat → List α → List α
  | _, [] => []
  | _, [x] => [x]
  | 0, l => l
  | b + 1, x :: y :: rest =>
    if y < x then y :: passUpTo b (x :: rest) else x :: passUpTo b (y :: rest)

def passes {α : Type} [LinearOrder α] : Nat → List α → List α
  | 0, l => l
  | b + 1, l => passes b (passUpTo (b + 1) l)

/-- The bubble sort shared by sortInts and sortStrings: len(xs)-1 passes,
the i-th with inner bound len(xs)-1-i. -/
def bubbleSort {α : Type} [LinearOrder α] (l : List α) : List α :=
  passes (l.length - 1) l

/-- sortInts (src/08-interfaces/main.go lines 612-621). -/
def sortInts (nums : List Int) : List Int := bubbleSort nums

/-- sortStrings (src/08-interfaces/main.go lines 623-632): the same loops
with the Go string comparison, a lexicographic order. -/
def sortStrings (strs : List String) : List String := bubbleSort strs

/-- A concrete user whose age fails the processUser check. -/
def bob16 : User := { ID := "u1", Name := "Bob", Age := 16, Email := "bob@example.com" }

/-! ## Theorems settling the claims. -/

/-- C2: the claim says every chapter main.go is well-typed, in particular
the first statements of main in chapters 2 and 4. In fact the second
statement of main in both chapters passes the product of a string constant
and 50 to Println, and that expression has no type in Go (the * operator
is numeric only), while the first statement is well typed: the chapters do
not compile, contradicting the stated intent that each chapter builds and
runs. -/
theorem c2_separator_expression_has_no_type :
    typeOf ch2MainLine7Arg = none
    ∧ typeOf ch2MainLine6Arg = some GoType.tString
    ∧ typeOf ch4MainLine6Arg = some GoType.tString :=
  ⟨rfl, rfl, rfl⟩

/-- C9: safeDivide is observably equivalent to divideSafely: same quotient
for a nonzero divisor with a nil error, and for a zero divisor both
return a zero result with a non-nil error, the panic in safeDivide being
recovered into an error value rather than propagated. -/
theorem c9_safe_divide_equiv (a b : Int) :
    (safeDivide a b).1 = (divideSafely a b).1
    ∧ ((safeDivide a b).2 = none ↔ (divideSafely a b).2 = none)
    ∧ (b ≠ 0 → safeDivide a b = (Int.tdiv a b, none)
        ∧ divideSafely a b = (Int.tdiv a b, none))
    ∧ (b = 0 → safeDivide a b = (0, some "panic recovered: division by zero")
        ∧ divideSafely a b = (0, some "division by zero")) := by
  by_cases hb : b = 0 <;>
    simp [safeDivide, safeDivideBody, divideSafely, hb]

/-- Witness for c9_safe_divide_equiv at the inputs the chapter itself
uses, (10, 0) and (10, 5). -/
theorem c9_safe_divide_equiv_witness :
    safeDivide 10 0 = (0, some "panic recovered: division by zero")
    ∧ divideSafely 10 0 = (0, some "division by zero")
    ∧ safeDivide 10 5 = (Int.tdiv 10 5, none) :=
  ⟨((c9_safe_divide_equiv 10 0).2.2.2 rfl).1,
   ((c9_safe_divide_equiv 10 0).2.2.2 rfl).2,
   ((c9_safe_divide_equiv 10 5).2.2.1 (by decide)).1⟩

/-- C10: File.Read on an open file returns n = len(f.Content) and a nil
error whatever the buffer length; copy transfers only
min(len p, len Content) bytes, so with a buffer shorter than the content
the returned n strictly exceeds the number of bytes copied. -/
theorem c10_file_read_on_open (f : File) (p : List Nat) (h : f.IsOpen = true) :
    (fileRead f p).2.1 = f.Content.length
    ∧ (fileRead f p).2.2 = none
    ∧ (goCopy p f.Content).2 = min p.length f.Content.length
    ∧ (p.length < f.Content.length → (goCopy p f.Content).2 < (fileRead f p).2.1) := by
  refine ⟨?_, ?_, ?_, ?_⟩ <;> simp [fileRead, goCopy, h]

/-- Witness for c10_file_read_on_open: the open demo file of five bytes
read into a three-byte buffer reports n = 5 although 3 bytes were
copied. -/
theorem c10_file_read_on_open_witness :
    (fileRead demoFile shortBuf).2.1 = 5
    ∧ (fileRead demoFile shortBuf).2.2 = none
    ∧ (goCopy shortBuf demoFile.Content).2 = 3
    ∧ (goCopy shortBuf demoFile.Content).2 < (fileRead demoFile shortBuf).2.1 := by
  have h := c10_file_read_on_open demoFile shortBuf rfl
  exact ⟨h.1.trans (by decide), h.2.1, (h.2.2.1).trans (by decide), h.2.2.2 (by decide)⟩

/-- C6 counterexample: the File type does carry open/closed lifecycle
state. The same Read call on the same buffer succeeds on the demo file
but fails after Close was performed on it, so the result of an operation
does depend on which operations were performed on the value before. -/
theorem c6_file_read_depends_on_close :
    (fileRead demoFile demoBuf).2.2 = none
    ∧ (fileRead (fileClose demoFile).1 demoBuf).2.2 = some "file is not open"
    ∧ fileRead demoFile demoBuf ≠ fileRead (fileClose demoFile).1 demoBuf := by
  decide

/-- C6 as amended: most illustrative types are used statelessly, but the
File type is a two-state machine: after Close the file reports closed and
every Read on it returns the error, while Read on an open file returns a
nil error. -/
theorem c6_file_lifecycle (f : File) (p : List Nat) (h : f.IsOpen = true) :
    (fileClose f).1.IsOpen = false
    ∧ fileRead (fileClose f).1 p = (p, 0, some "file is not open")
    ∧ (fileRead f p).2.2 = none := by
  simp [fileClose, fileRead, h]

/-- Witness for c6_file_lifecycle at the demo file and buffer. -/
theorem c6_file_lifecycle_witness :
    (fileClose demoFile).1.IsOpen = false
    ∧ fileRead (fileClose demoFile).1 demoBuf = (demoBuf, 0, some "file is not open")
    ∧ (fileRead demoFile demoBuf).2.2 = none :=
  c6_file_lifecycle demoFile demoBuf rfl

/-- C7 counterexample: the chapter 7 HaveBirthday has a value receiver,
so the call runs on a copy: the callers Age is still 25 afterwards, not
increased by 1, even though the printed line shows 26. -/
theorem c7_value_receiver_no_mutation :
    (callHaveBirthday07 alice07).1.Age = 25
    ∧ ¬ (callHaveBirthday07 alice07).1.Age = alice07.Age + 1
    ∧ (callHaveBirthday07 alice07).2 = "Happy birthday! Alice is now 26 years old.\n" := by
  decide

/-- C7 as amended: the pointer-receiver HaveBirthday of chapter 9 mutates
the struct it is called on, increasing Age by exactly 1 and leaving every
other field unchanged; the value-receiver HaveBirthday of chapter 7
leaves the callers struct entirely unchanged. -/
theorem c7_havebirthday_receivers (p : Person09) (q : Person07) :
    (callHaveBirthday09 p).1.Age = p.Age + 1
    ∧ (callHaveBirthday09 p).1.Name = p.Name
    ∧ (callHaveBirthday09 p).1.Email = p.Email
    ∧ (callHaveBirthday09 p).1.IsActive = p.IsActive
    ∧ (callHaveBirthday09 p).1.Hobbies = p.Hobbies
    ∧ (callHaveBirthday09 p).1.Metadata = p.Metadata
    ∧ (callHaveBirthday07 q).1 = q := by
  simp [callHaveBirthday09, callHaveBirthday07, goMethodCallByPointer,
    goMethodCallByValue, haveBirthdayBody09, haveBirthdayBody07]

/-- C8: GetConfig is a singleton accessor: every call returns the same
non-nil pointer, a second call changes nothing, and a SetTheme performed
through the returned pointer is observable through the pointer returned
by every other call. -/
theorem c8_getconfig_singleton (s : Mem) (th : String) :
    ∃ a : Nat,
      (GetConfig s).1 = some a
      ∧ (GetConfig (GetConfig s).2).1 = some a
      ∧ (GetConfig (GetConfig s).2).2 = (GetConfig s).2
      ∧ (GetConfig (SetTheme (GetConfig s).2 a th)).1 = some a
      ∧ GetTheme (SetTheme (GetConfig s).2 a th) a = th := by
  cases h : s.configInstance with
  | some a =>
    exact ⟨a, by simp [GetConfig, SetTheme, GetTheme, h]⟩
  | none =>
    exact ⟨s.next, by simp [GetConfig, SetTheme, GetTheme, h]⟩

/-- C1 counterexample: the chapter output is not a fixed string
independent of run-time conditions. Two iteration orders of the chapter 6
bookRatings map, both permutations of its entries and hence both possible
runs of the range loop, print different text; and the chapter 10 function
simulateUnreliableOperation returns different results for two different
clock readings. -/
theorem c1_output_not_fixed :
    List.Perm bookRatingsAlt bookRatings
    ∧ rangeOutput bookRatingsAlt ≠ rangeOutput bookRatings
    ∧ simulateUnreliableOperation 0 ≠ simulateUnreliableOperation 7 := by
  refine ⟨by decide, by decide, by decide⟩

/-- C1 as amended: the output of each chapter is a deterministic function
of the run-time inputs the language leaves unspecified. Any iteration
order of the chapter 6 map, being a permutation of its entries, prints a
permutation of the same multiset of lines (though not necessarily the
same text), and simulateUnreliableOperation is determined by the clock
reading, succeeding exactly when the reading mod 10 is at least 7. -/
theorem c1_deterministic_given_runtime (order : List (String × Int)) (t : Int)
    (h : List.Perm order bookRatings) :
    List.Perm (rangeLines order) (rangeLines bookRatings)
    ∧ (simulateUnreliableOperation t = none ↔ 7 ≤ Int.tmod t 10) := by
  constructor
  · simpa [rangeLines] using h.map ratingLine
  · by_cases h7 : Int.tmod t 10 < 7
    · simp [simulateUnreliableOperation, h7]
    · simp [simulateUnreliableOperation, h7]
      omega

/-- Witness for c1_deterministic_given_runtime at the alternative
iteration order and the clock reading 9. -/
theorem c1_deterministic_given_runtime_witness :
    List.Perm (rangeLines bookRatingsAlt) (rangeLines bookRatings)
    ∧ (simulateUnreliableOperation 9 = none ↔ 7 ≤ Int.tmod 9 10) :=
  c1_deterministic_given_runtime bookRatingsAlt 9 (by decide)

/-- Helper for C4: errors.As with a ValidationError target succeeds on an
error exactly when some link of its wrapped-error chain is a
ValidationError. -/
theorem errorsAsValidation_iff_chain (e : GoErr) :
    errorsAsValidation e = true ↔ ∃ l ∈ chain e, isValidationLink l = true := by
  induction e with
  | base i m => simp [errorsAsValidation, chain, isValidationLink]
  | wrap pre inner ih => simp [errorsAsValidation, chain, isValidationLink, ih]
  | validation f m v => simp [errorsAsValidation, chain, isValidationLink]
  | database op t m c => simp [errorsAsValidation, chain, isValidationLink]

/-- C4: in the four-level chain of section5_AdvancedErrorPatterns,
errors.Is finds originalErr from apiErr; repeated errors.Unwrap from
apiErr yields serviceErr, dbErr, originalErr and then nil; and errors.As
finds a ValidationError in a chain exactly when some link of the chain is
a ValidationError. -/
theorem c4_error_chain :
    errorsIs apiErr originalErr = true
    ∧ unwrap apiErr = some serviceErr
    ∧ unwrap serviceErr = some dbErr
    ∧ unwrap dbErr = some originalErr
    ∧ unwrap originalErr = none
    ∧ (∀ e : GoErr, errorsAsValidation e = true ↔ ∃ l ∈ chain e, isValidationLink l = true) :=
  ⟨by decide, rfl, rfl, rfl, rfl, errorsAsValidation_iff_chain⟩

/-- Helper for C3: processUser itself never writes to standard error; its
own output is at most the single stdout success line. -/
theorem processUser_snd_no_stderr (u : User) (s : String) :
    Effect.stderr s ∉ (processUser u).2 := by
  by_cases h1 : u.Name = "" <;> by_cases h2 : u.Age < 18 <;>
    by_cases h3 : u.Email = "" <;> by_cases h4 : containsAtSign u.Email = false <;>
    simp [processUser, h1, h2, h3, h4]

/-- C3 counterexample: chapter 10 writes to a stream other than standard
output. handleUserSubmission on a 16-year-old user emits the log.Printf
line, a standard-error write. -/
theorem c3_stderr_counterexample :
    Effect.stderr "User submission failed: user must be at least 18" ∈ handleUserSubmission bob16
    ∧ (handleUserSubmission bob16).any isStderrEffect = true := by
  decide

/-- C3 as amended: the chapter programs write only to standard output
except for the chapter 10 log.Printf calls, which write to standard
error; handleUserSubmission writes to standard error exactly when
processUser rejects the user, processUserWithErrorTypes exactly when the
age check passes and the simulated database failure is logged, and every
emitted effect is a write to one of the two streams. -/
theorem c3_stderr_exactly_on_failure (u : User) :
    ((∃ s, Effect.stderr s ∈ handleUserSubmission u) ↔ (processUser u).1 ≠ none)
    ∧ ((∃ s, Effect.stderr s ∈ (processUserWithErrorTypes u).2) ↔ ¬ u.Age < 18)
    ∧ ∀ e ∈ handleUserSubmission u, (∃ s, e = Effect.stdout s) ∨ (∃ s, e = Effect.stderr s) := by
  refine ⟨⟨?_, ?_⟩, ?_, ?_⟩
  · rintro ⟨s, hs⟩ hnone
    rcases hpu : processUser u with ⟨err, out⟩
    rw [hpu] at hnone
    simp at hnone
    subst hnone
    simp only [handleUserSubmission, hpu] at hs
    simp at hs
    exact processUser_snd_no_stderr u s (by rw [hpu]; exact hs)
  · intro hne
    rcases hpu : processUser u with ⟨err, out⟩
    rw [hpu] at hne
    cases err with
    | none => simp at hne
    | some e =>
      exact ⟨"User submission failed: " ++ errMsg e, by simp [handleUserSubmission, hpu]⟩
  · by_cases h2 : u.Age < 18
    · simp [processUserWithErrorTypes, validateUserAge, h2]
    · simp [processUserWithErrorTypes, validateUserAge, h2, connectToDatabase]
  · intro e he
    cases e with
    | stdout s => exact Or.inl ⟨s, rfl⟩
    | stderr s => exact Or.inr ⟨s, rfl⟩

/-- Witness for c3_stderr_exactly_on_failure at the concrete rejected
user: the submission fails, so a standard-error write exists. -/
theorem c3_stderr_exactly_on_failure_witness :
    ∃ s, Effect.stderr s ∈ handleUserSubmission bob16 :=
  ((c3_stderr_exactly_on_failure bob16).1).mpr (by decide)

/-- Helper for C5: an inner bubble pass permutes the list. -/
theorem passUpTo_perm {α : Type} [LinearOrder α] :
    ∀ (b : Nat) (l : List α), List.Perm (passUpTo b l) l := by
  intro b
  induction b with
  | zero =>
    intro l
    match l with
    | [] => simp [passUpTo]
    | [x] => simp [passUpTo]
    | x :: y :: ys => simp [passUpTo]
  | succ b ih =>
    intro l
    match l with
    | [] => simp [passUpTo]
    | [x] => simp [passUpTo]
    | x :: y :: ys =>
      by_cases hxy : y < x
      · simp only [passUpTo, if_pos hxy]
        exact ((ih (x :: ys)).cons y).trans (List.Perm.swap x y ys)
      · simp only [passUpTo, if_neg hxy]
        exact (ih (y :: ys)).cons x

/-- Helper for C5: a full inner pass over a list of length b+1 moves a
maximum of the list to its last position. -/
theorem passUpTo_max {α : Type} [LinearOrder α] :
    ∀ (b : Nat) (l : List α), l.length = b + 1 →
      ∃ l₂ m, passUpTo b l = l₂ ++ [m] ∧ ∀ z ∈ l, z ≤ m := by
  intro b
  induction b with
  | zero =>
    intro l hl
    match l, hl with
    | [x], _ =>
      exact ⟨[], x, by simp [passUpTo], by simp⟩
  | succ b ih =>
    intro l hl
    match l, hl with
    | x :: y :: ys, hl =>
      have hlen : (x :: ys).length = b + 1 := by
        simp at hl
        simp [hl]
      have hlen2 : (y :: ys).length = b + 1 := by
        simp at hl
        simp [hl]
      by_cases hxy : y < x
      · obtain ⟨l₂, m, heq, hmax⟩ := ih (x :: ys) hlen
        refine ⟨y :: l₂, m, ?_, ?_⟩
        · simp [passUpTo, hxy, heq]
        · intro z hz
          rcases List.mem_cons.mp hz with hz | hz
          · rw [hz]
            exact hmax x (List.mem_cons_self x ys)
          · rcases List.mem_cons.mp hz with hz2 | hz2
            · rw [hz2]
              exact le_trans (le_of_lt hxy) (hmax x (List.mem_cons_self x ys))
            · exact hmax z (List.mem_cons_of_mem x hz2)
      · obtain ⟨l₂, m, heq, hmax⟩ := ih (y :: ys) hlen2
        refine ⟨x :: l₂, m, ?_, ?_⟩
        · simp [passUpTo, hxy, heq]
        · intro z hz
          rcases List.mem_cons.mp hz with hz | hz
          · rw [hz]
            exact le_trans (not_lt.mp hxy) (hmax y (List.mem_cons_self y ys))
          · exact hmax z hz

/-- Helper for C5: with bound b, a pass over a list whose first b+1
elements form the prefix u only touches u. -/
theorem passUpTo_append {α : Type} [LinearOrder α] :
    ∀ (b : Nat) (u v : List α), u.length = b + 1 →
      passUpTo b (u ++ v) = passUpTo b u ++ v := by
  intro b
  induction b with
  | zero =>
    intro u v hu
    match u, hu with
    | [x], _ =>
      match v with
      | [] => simp [passUpTo]
      | w :: ws => simp [passUpTo]
  | succ b ih =>
    intro u v hu
    match u, hu with
    | x :: y :: u₂, hu =>
      have hlen : (x :: u₂).length = b + 1 := by
        simp at hu
        simp [hu]
      have hlen2 : (y :: u₂).length = b + 1 := by
        simp at hu
        simp [hu]
      by_cases hxy : y < x
      · simp only [List.cons_append, passUpTo, if_pos hxy, List.append_eq]
        rw [show x :: (u₂ ++ v) = (x :: u₂) ++ v from rfl, ih (x :: u₂) v hlen]
      · simp only [List.cons_append, passUpTo, if_neg hxy, List.append_eq]
        rw [show y :: (u₂ ++ v) = (y :: u₂) ++ v from rfl, ih (y :: u₂) v hlen2]

/-- Helper for C5: the outer loop invariant. Running the remaining passes
with bounds b, b-1, ..., 1 on u ++ v, where u has length b+1, v is
already sorted and every element of u is at most every element of v,
yields a sorted permutation of u ++ v. -/
theorem passes_spec {α : Type} [LinearOrder α] :
    ∀ (b : Nat) (u v : List α), u.length = b + 1 →
      List.Sorted (· ≤ ·) v → (∀ x ∈ u, ∀ y ∈ v, x ≤ y) →
      List.Sorted (· ≤ ·) (passes b (u ++ v)) ∧ List.Perm (passes b (u ++ v)) (u ++ v) := by
  intro b
  induction b with
  | zero =>
    intro u v hu hv huv
    match u, hu with
    | [x], _ =>
      simp only [passes, List.singleton_append]
      constructor
      · exact List.sorted_cons.mpr ⟨fun y hy => huv x (List.mem_singleton_self x) y hy, hv⟩
      · exact List.Perm.refl _
  | succ b ih =>
    intro u v hu hv huv
    obtain ⟨l₂, m, heq, hm⟩ := passUpTo_max (b + 1) u hu
    have hperm_pass : List.Perm (passUpTo (b + 1) u) u := passUpTo_perm (b + 1) u
    have hl₂len : l₂.length = b + 1 := by
      have hle := hperm_pass.length_eq
      rw [heq] at hle
      simp at hle
      omega
    have hmem : ∀ z ∈ l₂, z ∈ u := by
      intro z hz
      exact hperm_pass.subset (by rw [heq]; exact List.mem_append_left [m] hz)
    have hm_mem : m ∈ u := by
      exact hperm_pass.subset (by rw [heq]; exact List.mem_append_right l₂ (List.mem_singleton_self m))
    have step : passes (b + 1) (u ++ v) = passes b (l₂ ++ (m :: v)) := by
      have h1 : passes (b + 1) (u ++ v) = passes b (passUpTo (b + 1) (u ++ v)) := rfl
      rw [h1, passUpTo_append (b + 1) u v hu, heq, List.append_assoc, List.singleton_append]
    have hsorted_mv : List.Sorted (· ≤ ·) (m :: v) :=
      List.sorted_cons.mpr ⟨fun y hy => huv m hm_mem y hy, hv⟩
    have hbound : ∀ x ∈ l₂, ∀ y ∈ m :: v, x ≤ y := by
      intro x hx y hy
      rcases List.mem_cons.mp hy with hy | hy
      · subst hy
        exact hm x (hmem x hx)
      · exact huv x (hmem x hx) y hy
    obtain ⟨hs, hp⟩ := ih l₂ (m :: v) hl₂len hsorted_mv hbound
    constructor
    · rw [step]
      exact hs
    · rw [step]
      refine hp.trans ?_
      rw [show l₂ ++ (m :: v) = (l₂ ++ [m]) ++ v by rw [List.append_assoc, List.singleton_append]]
      exact List.Perm.append_right v (heq ▸ hperm_pass)

/-- Helper for C5: the bubble sort returns a sorted permutation of its
input. -/
theorem bubbleSort_sorted_perm {α : Type} [LinearOrder α] (l : List α) :
    List.Sorted (· ≤ ·) (bubbleSort l) ∧ List.Perm (bubbleSort l) l := by
  match l with
  | [] => simp [bubbleSort, passes]
  | x :: xs =>
    have h := passes_spec xs.length (x :: xs) [] (by simp) (by simp) (by simp)
    simp only [List.append_nil] at h
    have hb : bubbleSort (x :: xs) = passes xs.length (x :: xs) := by
      simp [bubbleSort]
    rw [hb]
    exact h

/-- Helper for C5: a sorted permutation is unique, so the bubble sort
agrees with any correct sort, here Mathlib insertion sort standing in for
the standard library sort. -/
theorem bubbleSort_eq_insertionSort {α : Type} [LinearOrder α] (l : List α) :
    bubbleSort l = List.insertionSort (fun a b => a ≤ b) l := by
  have h := bubbleSort_sorted_perm l
  exact List.eq_of_perm_of_sorted
    (h.2.trans (List.perm_insertionSort (fun a b => a ≤ b) l).symm)
    h.1 (List.sorted_insertionSort (fun a b => a ≤ b) l)

/-- C5: sortInts leaves the slice holding a nondecreasing permutation of
its original contents, and computes the same list as a standard
correct sort (sorted permutations being unique); likewise sortStrings
under the lexicographic string order. -/
theorem c5_sort_helpers_correct (nums : List Int) (strs : List String) :
    List.Perm (sortInts nums) nums
    ∧ List.Sorted (fun a b => a ≤ b) (sortInts nums)
    ∧ sortInts nums = List.insertionSort (fun a b => a ≤ b) nums
    ∧ List.Perm (sortStrings strs) strs
    ∧ List.Sorted (fun a b => a ≤ b) (sortStrings strs)
    ∧ sortStrings strs = List.insertionSort (fun a b => a ≤ b) strs :=
  ⟨(bubbleSort_sorted_perm nums).2, (bubbleSort_sorted_perm nums).1,
   bubbleSort_eq_insertionSort nums,
   (bubbleSort_sorted_perm strs).2, (bubbleSort_sorted_perm strs).1,
   bubbleSort_eq_insertionSort strs⟩

end GoBook
